import Mathlib

/-!
# Verification of the MostaQL change-detection and notification pipeline

A shallow embedding of the pipeline implemented under `backend/` of the
MostaQL job-notifier repository, together with theorems settling the
specification's claims about it.

Conventions of the embedding:

* SQLAlchemy rows become Lean structures; the database session becomes an
  explicit `DB` state record that operations thread through.
* `datetime.utcnow()` timestamps become `Nat` parameters supplied by the
  caller; wall-clock instants in the enrichment rate limiter become `Rat`.
* Python `float` scores (hiring rates) become `Rat`: the pipeline only ever
  compares them, never does arithmetic on them.
* Network fetches become explicit parameters (`Option JobData` for the probe,
  `FetchResult` for a full page fetch, `TaskOutcome` for a transport call):
  each operation is a pure function of the state and of the observed
  network behaviour.
* Fallible persistence (a commit that can hit the UNIQUE constraint on
  `jobs.url`) is modelled by an explicit constraint check followed by either
  the committed state or the rolled-back (unchanged) state, exactly as the
  `try: commit / except: rollback` blocks behave.
-/

namespace MostaQL

/-- `NotificationChannel.EMAIL.value` (`backend/enums.py`). -/
def channel_email : String := "email"

/-- `NotificationChannel.TELEGRAM.value` (`backend/enums.py`). -/
def channel_telegram : String := "telegram"

/-- `NotificationStatus.PENDING.value` (`backend/enums.py`). -/
def status_pending : String := "pending"

/-- `NotificationStatus.SENT.value` (`backend/enums.py`). -/
def status_sent : String := "sent"

/-- `NotificationStatus.FAILED.value` (`backend/enums.py`). -/
def status_failed : String := "failed"

/-- The `"success"` run-outcome literal of `scrape_category_with_logging`. -/
def outcome_success : String := "success"

/-- The `"blocked"` run-outcome literal of `scrape_category_with_logging`. -/
def outcome_blocked : String := "blocked"

/-- The `"error"` run-outcome literal of `scrape_category_with_logging`. -/
def outcome_error : String := "error"

/-- The empty string (fallback for absent optional values in task payloads). -/
def empty_string : String := ""

/-- The newline separating item titles in a chat message body. -/
def newline_string : String := "\n"

/-- SHA-256 digest of `content` (`backend/utils/security.py`, `hash_content`).
The pipeline only ever compares digests for equality, and distinct short
strings have distinct SHA-256 digests; the digest function is therefore
modelled as an injective function of the content — the identity. -/
def hash_content (content : String) : String := content

/-- The `{'title': ..., 'url': ...}` dict produced by the scraper's parsers
(`scrape_category` / `quick_check_category` rows). -/
structure JobData where
  title : String
  url : String
deriving Repr, DecidableEq

/-- Row of the `jobs` table (`backend/database.py`, class `Job`). -/
structure Job where
  id : Nat
  title : String
  url : String
  content_hash : String
  hiring_rate : Option Rat := none
  category_id : Nat
  scraped_at : Nat
deriving Repr, DecidableEq

/-- Row of the `categories` table (`backend/database.py`, class `Category`).
`scrape_failures` is nullable in practice (`category.scrape_failures or 0`
in the source), hence `Option Nat`. -/
structure Category where
  id : Nat
  name : String
  mostaql_url : String
  last_scraped_at : Option Nat := none
  scrape_failures : Option Nat := some 0
deriving Repr, DecidableEq

/-- Row of the `users` table (`backend/database.py`, class `User`). -/
structure User where
  id : Nat
  email : String
  verified : Bool
  token : String
  unsubscribed : Bool
  receive_email : Bool
  receive_telegram : Bool
  telegram_chat_id : Option String
  min_hiring_rate : Option Rat
  last_notified_at : Option Nat
deriving Repr, DecidableEq

/-- Row of the `notifications` table (`backend/database.py`, class
`Notification`).  `sent_at` has column default `datetime.utcnow`, so a row
created without an explicit value carries its creation time. -/
structure Notification where
  id : Nat
  user_id : Nat
  job_id : Nat
  channel : Option String
  sent_at : Option Nat
  status : String
  error_message : Option String
deriving Repr, DecidableEq

/-- Row of the `scraper_logs` table (`backend/database.py`, class
`ScraperLog`). -/
structure ScraperLog where
  category_id : Option Nat
  status : String
  jobs_found : Nat
  duration_seconds : Rat
  error_message : Option String
  scraped_at : Nat
deriving Repr, DecidableEq

/-- The persistent store: one record per table, plus autoincrement counters
for the two tables whose generated primary keys the pipeline reads back. -/
structure DB where
  categories : List Category
  users : List User
  user_categories : List (Nat × Nat)
  jobs : List Job
  notifications : List Notification
  scraper_logs : List ScraperLog
  next_job_id : Nat
  next_notification_id : Nat
deriving Repr, DecidableEq

/-! ## Listing synchronizer (`backend/services/scraper.py`) -/

/-- `_job_exists_in_db`: a candidate is already known when some persisted job
matches it by content fingerprint or by URL. -/
def _job_exists_in_db (jobs : List Job) (job_data : JobData) : Bool :=
  jobs.any fun j =>
    j.content_hash == hash_content job_data.title || j.url == job_data.url

/-- The candidates of one `save_new_jobs` call that survive the dedup check.
The session is created with `autoflush=False`, so the per-candidate query in
the loop sees only rows committed before the call — pending `db.add`s are
invisible to it.  Hence every candidate is checked against the same snapshot. -/
def fresh_candidates (jobs : List Job) (cands : List JobData) : List JobData :=
  cands.filter fun jd => !(_job_exists_in_db jobs jd)

/-- The `Job` rows built for the fresh candidates of a `save_new_jobs` call,
with sequential autoincrement ids starting at `nextId`. -/
def mk_new_jobs (category_id : Nat) : List JobData → Nat → Nat → List Job
  | [], _, _ => []
  | jd :: rest, nextId, now =>
      { id := nextId
        title := jd.title
        url := jd.url
        content_hash := hash_content jd.title
        hiring_rate := none
        category_id := category_id
        scraped_at := now } :: mk_new_jobs category_id rest (nextId + 1) now

/-- Whether a list of strings contains a repeated entry. -/
def has_dup : List String → Bool
  | [] => false
  | u :: rest => rest.contains u || has_dup rest

/-- Whether committing `newJobs` on top of `existing` hits the UNIQUE
constraint on `jobs.url`: some inserted row repeats the URL of an existing
row or of another inserted row.  (`jobs.content_hash` is only indexed, not
unique, so duplicated fingerprints do not fail the commit.) -/
def commit_hits_unique_url (existing newJobs : List Job) : Bool :=
  newJobs.any (fun n => existing.any fun e => e.url == n.url) ||
    has_dup (newJobs.map (·.url))

/-- `save_new_jobs`: dedup-check every candidate against the committed rows,
add a row for each fresh candidate, then commit; on a constraint violation
the whole transaction rolls back and the function returns the empty list. -/
def save_new_jobs (db : DB) (category_id : Nat) (cands : List JobData)
    (now : Nat) : DB × List Job :=
  let newJobs := mk_new_jobs category_id (fresh_candidates db.jobs cands)
    db.next_job_id now
  if commit_hits_unique_url db.jobs newJobs then
    (db, [])
  else
    ({ db with
        jobs := db.jobs ++ newJobs
        next_job_id := db.next_job_id + newJobs.length },
      newJobs)

/-- `log_scrape_result`: append one `ScraperLog` row. -/
def log_scrape_result (db : DB) (category_id : Nat) (status : String)
    (jobs_found : Nat) (duration : Rat) (error_msg : Option String)
    (now : Nat) : DB :=
  { db with
      scraper_logs := db.scraper_logs ++
        [{ category_id := some category_id
           status := status
           jobs_found := jobs_found
           duration_seconds := duration
           error_message := error_msg
           scraped_at := now }] }

/-- `update_category_scrape_status`: stamp `last_scraped_at` and reset or
bump `scrape_failures` on the category row (a no-op when the id is absent). -/
def update_category_scrape_status (db : DB) (category_id : Nat)
    (success : Bool) (now : Nat) : DB :=
  { db with
      categories := db.categories.map fun c =>
        if c.id = category_id then
          { c with
              last_scraped_at := some now
              scrape_failures :=
                if success then some 0
                else some ((c.scrape_failures.getD 0) + 1) }
        else c }

/-- Observed behaviour of the full-page fetch in `scrape_category`:
either a parsed row list (parse failures just yield fewer rows), or a raised
`requests.HTTPError` carrying a status code, or any other raised error
(timeout, connection failure, ...). -/
inductive FetchResult where
  | ok (rows : List JobData)
  | httpError (status : Nat) (msg : String)
  | exn (msg : String)
deriving Repr, DecidableEq

/-- `scrape_category_with_logging`: run the full fetch, persist the fresh
rows, write exactly one `ScraperLog` row classifying the outcome
(`success` / `blocked` on HTTP 429 / `error` otherwise) and update the
category's sync status.  Enrichment only mutates `hiring_rate` and swallows
its own failures, so it is not modelled here. -/
def scrape_category_with_logging (db : DB) (category_id : Nat)
    (fetch : FetchResult) (now : Nat) (duration : Rat) : DB × List Job :=
  match db.categories.find? (fun c => c.id = category_id) with
  | none => (db, [])
  | some _ =>
    match fetch with
    | .ok rows =>
        let (db1, newJobs) := save_new_jobs db category_id rows now
        let db2 := log_scrape_result db1 category_id outcome_success newJobs.length
          duration none now
        (update_category_scrape_status db2 category_id true now, newJobs)
    | .httpError status msg =>
        let st := if status = 429 then outcome_blocked else outcome_error
        let db1 := log_scrape_result db category_id st 0 duration (some msg) now
        (update_category_scrape_status db1 category_id false now, [])
    | .exn msg =>
        let db1 := log_scrape_result db category_id outcome_error 0 duration
          (some msg) now
        (update_category_scrape_status db1 category_id false now, [])

/-- `poll_category`: quick-check probe first; skip entirely when the probe
yields nothing or when the probed first item is already known; otherwise run
the full synchronizer.  `probe` is the value returned by
`quick_check_category` (`none` both for an unparseable page and for a failed
request — the function catches every exception and returns `None`). -/
def poll_category (db : DB) (category_id : Nat) (probe : Option JobData)
    (fetch : FetchResult) (now : Nat) (duration : Rat) : DB × List Job :=
  match db.categories.find? (fun c => c.id = category_id) with
  | none => (db, [])
  | some _ =>
    match probe with
    | none => (db, [])
    | some first_job =>
        if _job_exists_in_db db.jobs first_job then (db, [])
        else scrape_category_with_logging db category_id fetch now duration

/-! ## Channel dispatch queues (`backend/services/notification_queue.py`) -/

/-- The `BaseTask` fields consumed by the status write-back: the delivery
records a dispatch task will resolve and the recipients whose last-notified
timestamp it refreshes. -/
structure TaskRef where
  notification_ids : List Nat
  user_ids : List Nat
deriving Repr, DecidableEq

/-- What `_process_task(task)` did: returned a success/failure boolean, or
raised with a message. -/
inductive TaskOutcome where
  | ok (success : Bool)
  | exn (msg : String)
deriving Repr, DecidableEq

/-- `BaseTaskQueue._update_notification_status`: in one transaction, set every
referenced notification to `sent` (with `sent_at = now`) or `failed` (with
`sent_at = NULL`), write `error_message`, and on success refresh every
referenced user's `last_notified_at`. -/
def _update_notification_status (db : DB) (task : TaskRef) (success : Bool)
    (error_message : Option String) (now : Nat) : DB :=
  let status := if success then status_sent else status_failed
  let notifications := db.notifications.map fun n =>
    if task.notification_ids.contains n.id then
      { n with
          status := status
          sent_at := if success then some now else none
          error_message := error_message }
    else n
  let users :=
    if success && !task.user_ids.isEmpty then
      db.users.map fun u =>
        if task.user_ids.contains u.id then
          { u with last_notified_at := some now }
        else u
    else db.users
  { db with notifications := notifications, users := users }

/-- One iteration of `BaseTaskQueue._run` on a real task: invoke the channel
transport and write the outcome back.  A returned `False` records failure with
`error_message = None`; a raised exception records failure with its message. -/
def run_one_task (db : DB) (task : TaskRef) (outcome : TaskOutcome)
    (now : Nat) : DB :=
  match outcome with
  | .ok success => _update_notification_status db task success none now
  | .exn msg => _update_notification_status db task false (some msg) now

/-- The worker loop drains its FIFO queue one task at a time: pop the head,
process it, write its outcome back; nothing is ever pushed back. -/
def worker_step (db : DB) (queue : List TaskRef) (outcome : TaskOutcome)
    (now : Nat) : DB × List TaskRef :=
  match queue with
  | [] => (db, [])
  | task :: rest => (run_one_task db task outcome now, rest)

/-! ## Enrichment rate limiter (`enrich_jobs_with_hiring_rates`) -/

/-- The mutex-guarded cursor update in `fetch_rate_with_backoff`: on taking
the lock at wall-clock time `now`, a worker computes
`wait_time = rate_limit_delay - (now - request_lock)` and advances the shared
cursor `request_lock` to `now + wait_time` when it must wait, or to `now`
when it may fire immediately.  After releasing the lock it sleeps `wait_time`
(if positive) and issues its request — i.e. the request goes out exactly at
the new cursor value. -/
def cursor_step (rate_limit_delay request_lock now : Rat) : Rat :=
  if 0 < rate_limit_delay - (now - request_lock) then
    now + (rate_limit_delay - (now - request_lock))
  else now

/-- The pipeline-wide sequence of outbound-request instants: the lock
serializes the workers, so their lock-acquisition times form one sequence
`acquires`, and each acquisition turns into a request issued at the advanced
cursor value. -/
def issue_times (rate_limit_delay : Rat) (request_lock : Rat) :
    List Rat → List Rat
  | [] => []
  | now :: rest =>
      let c := cursor_step rate_limit_delay request_lock now
      c :: issue_times rate_limit_delay c rest

/-! ## Notification record creation (`backend/services/notifier.py`) -/

/-- `create_pending_notifications`: one `Notification(user_id=..., job_id=...,
status="pending")` per recipient, committed in a batch.  Only `user_id`,
`job_id` and `status` are passed; the remaining columns take their declared
defaults — in particular `sent_at` takes its `datetime.utcnow` column default,
i.e. the creation time, and `channel` / `error_message` stay `NULL`.
`mk_pending_rows` builds the rows with sequential autoincrement ids. -/
def mk_pending_rows (job_id now : Nat) : List Nat → Nat → List Notification
  | [], _ => []
  | uid :: uids, nextId =>
      { id := nextId
        user_id := uid
        job_id := job_id
        channel := none
        sent_at := some now
        status := status_pending
        error_message := none } :: mk_pending_rows job_id now uids (nextId + 1)

/-- The state change of `create_pending_notifications`: append the new rows
and advance the autoincrement counter. -/
def create_pending_notifications (db : DB) (job_id : Nat)
    (user_ids : List Nat) (now : Nat) : DB :=
  let created := mk_pending_rows job_id now user_ids db.next_notification_id
  { db with
      notifications := db.notifications ++ created
      next_notification_id := db.next_notification_id + created.length }

/-! ## Notification router

The latest notification router — the two-argument
`process_new_jobs(new_jobs, category_id)` invoked by
`backend/scheduler.py` (`run_scraper_job`) and by `backend/api/test.py` —
is not among the source files: the `notifier.py` present is a superseded
single-channel variant whose `process_new_jobs(db)` takes one argument and
knows nothing of channels, score filters or batching, while its callers, the
`channel` column, the `EmailTask`/`TelegramTask` dataclasses (with `bcc`) and
the per-channel queues all belong to the dual-channel router.  The router is
therefore modelled from the spec (§4.4–§4.5). -/

/-- The dispatch task of the email channel queue (`EmailTask` dataclass of
`backend/services/notification_queue.py`): delivery-record and recipient ids,
a primary recipient address, the category name used as subject, the item
payload, and an optional blind-copy address list for batched sends. -/
structure EmailTask where
  notification_ids : List Nat
  user_ids : List Nat
  email : String
  category_name : String
  jobs : List JobData
  unsubscribe_token : Option String
  bcc : Option (List String)
deriving Repr, DecidableEq

/-- All addresses an email dispatch task goes out to: the primary recipient
followed by the blind-copy list. -/
def EmailTask.recipients (t : EmailTask) : List String :=
  t.email :: t.bcc.getD []

/-- The dispatch task of the chat channel queue (`TelegramTask` dataclass of
`backend/services/notification_queue.py`): always a single recipient. -/
structure TelegramTask where
  notification_ids : List Nat
  user_ids : List Nat
  chat_id : String
  title : String
  content : String
deriving Repr, DecidableEq

/-- Modelled from the spec: eligibility of a recipient for the email channel —
"email channel requires verified=true AND receive-email opt-in=true". -/
def email_eligible (u : User) : Bool :=
  u.verified && u.receive_email

/-- Modelled from the spec: eligibility of a recipient for the chat channel —
"chat channel requires a configured chat handle AND receive-chat opt-in=true". -/
def telegram_eligible (u : User) : Bool :=
  u.telegram_chat_id.isSome && u.receive_telegram

/-- Modelled from the spec: the per-recipient minimum-score filter — "null
filter ⇒ all items pass; non-null filter ⇒ item's score must be present and
≥ filter". -/
def passes_filter (u : User) (j : Job) : Bool :=
  match u.min_hiring_rate with
  | none => true
  | some m =>
    match j.hiring_rate with
    | none => false
    | some r => decide (m ≤ r)

/-- Modelled from the spec: the recipients the router considers for a
category — subscribed to it and not unsubscribed ("a recipient's overall
unsubscribed flag disables both" channels).  The query preserves the store's
user order. -/
def get_users_for_notification (db : DB) (category_id : Nat) : List User :=
  db.users.filter fun u =>
    db.user_categories.contains (u.id, category_id) && !u.unsubscribed

/-- The items of this batch that pass a recipient's minimum-score filter. -/
def filtered_jobs (u : User) (new_jobs : List Job) : List Job :=
  new_jobs.filter (passes_filter u)

/-- The channels a recipient is eligible for, as the channel tags stored in
`notifications.channel` (`NotificationChannel` values of `backend/enums.py`). -/
def channel_tags (u : User) : List String :=
  (if email_eligible u then [channel_email] else []) ++
    (if telegram_eligible u then [channel_telegram] else [])

/-- A freshly created delivery record (id assigned afterwards by the
autoincrement column). -/
def mk_pending (u : User) (channel : String) (j : Job) (now : Nat) :
    Notification :=
  { id := 0
    user_id := u.id
    job_id := j.id
    channel := some channel
    sent_at := some now
    status := status_pending
    error_message := none }

/-- Autoincrement primary keys for a batch of inserted rows. -/
def assign_ids (nextId : Nat) : List Notification → List Notification
  | [] => []
  | n :: ns => { n with id := nextId } :: assign_ids (nextId + 1) ns

/-- The delivery records created for one recipient: none when the filtered
item-set is empty ("recipients whose item-set is empty after filtering are
skipped entirely"), otherwise one pending record per eligible channel per
passing item. -/
def user_block (u : User) (new_jobs : List Job) (now : Nat) :
    List Notification :=
  if (filtered_jobs u new_jobs).isEmpty then []
  else (channel_tags u).flatMap fun ch =>
    (filtered_jobs u new_jobs).map fun j => mk_pending u ch j now

/-- Modelled from the spec: the delivery records of one router run, recipient
by recipient in store order. -/
def router_records (users : List User) (new_jobs : List Job) (now : Nat) :
    List Notification :=
  users.flatMap fun u => user_block u new_jobs now

/-- Insert a recipient into the batch group keyed by its filtered item-list,
appending a new group at the end when the key is new: groups form in order of
first appearance and keep their recipients in original order. -/
def insert_grouped (key : List Job) (u : User) :
    List (List Job × List User) → List (List Job × List User)
  | [] => [(key, [u])]
  | (k, us) :: rest =>
      if k = key then (k, us ++ [u]) :: rest
      else (k, us) :: insert_grouped key u rest

/-- Modelled from the spec: "group eligible recipients by their identical
filtered item-set". -/
def group_by_itemset (pairs : List (User × List Job)) :
    List (List Job × List User) :=
  pairs.foldl (fun acc p => insert_grouped p.2 p.1 acc) []

/-- Split an oversized group into batches of at most `n` recipients,
preserving order; a configured size of `0` degenerates to one batch. -/
def chunk_list (n : Nat) : List User → List (List User)
  | [] => []
  | u :: us =>
    match n with
    | 0 => [u :: us]
    | m + 1 => (u :: us).take (m + 1) :: chunk_list (m + 1) ((u :: us).drop (m + 1))
termination_by l => l.length
decreasing_by
  simp only [List.drop_succ_cons, List.length_drop, List.length_cons]
  omega

/-- Result of one router run: the updated store plus the dispatch tasks
enqueued on the two channel queues, in enqueue order. -/
structure RouterResult where
  db : DB
  email_tasks : List EmailTask
  telegram_tasks : List TelegramTask
deriving Repr, DecidableEq

/-- Modelled from the spec: the missing latest `process_new_jobs(new_jobs,
category_id)` — select the subscribed, not-unsubscribed recipients, apply the
minimum-score filter per recipient, create one pending delivery record per
(recipient, passing item, eligible channel), then batch email recipients with
identical filtered item-sets into blind-copy groups of at most `max_batch`
and enqueue one email dispatch task per batch, and one chat dispatch task per
chat-eligible recipient (the chat channel is never batched). -/
def process_new_jobs (db : DB) (new_jobs : List Job) (category_id : Nat)
    (now : Nat) (max_batch : Nat) : RouterResult :=
  let users := get_users_for_notification db category_id
  let active := (users.map fun u => (u, filtered_jobs u new_jobs)).filter
    fun p => !p.2.isEmpty
  let created := assign_ids db.next_notification_id
    (router_records users new_jobs now)
  let cat_name :=
    ((db.categories.find? fun c => c.id = category_id).map (·.name)).getD empty_string
  let email_groups := group_by_itemset (active.filter fun p => email_eligible p.1)
  let email_batches := email_groups.flatMap fun g =>
    (chunk_list max_batch g.2).map fun chunk => (g.1, chunk)
  let email_tasks := email_batches.map fun b =>
    { notification_ids := (created.filter fun n =>
        n.channel = some channel_email && b.2.any fun u => u.id = n.user_id).map (·.id)
      user_ids := b.2.map (·.id)
      email := ((b.2.head?.map (·.email)).getD empty_string)
      category_name := cat_name
      jobs := b.1.map fun j => { title := j.title, url := j.url }
      unsubscribe_token := b.2.head?.map (·.token)
      bcc := some ((b.2.drop 1).map (·.email)) }
  let telegram_tasks := (active.filter fun p => telegram_eligible p.1).map
    fun p =>
      { notification_ids := (created.filter fun n =>
          n.channel = some channel_telegram && n.user_id = p.1.id).map (·.id)
        user_ids := [p.1.id]
        chat_id := p.1.telegram_chat_id.getD empty_string
        title := cat_name
        content := String.intercalate newline_string (p.2.map (·.title)) }
  { db := { db with
              notifications := db.notifications ++ created
              next_notification_id := db.next_notification_id + created.length }
    email_tasks := email_tasks
    telegram_tasks := telegram_tasks }

/-- One polling-cycle step for one category, as `run_scraper_job`
(`backend/scheduler.py`) performs it: poll (probe, then full scrape when
warranted) and, when new items were persisted, route notifications for them. -/
def run_polling_cycle_for_category (db : DB) (category_id : Nat)
    (probe : Option JobData) (fetch : FetchResult) (now : Nat)
    (duration : Rat) (max_batch : Nat) : RouterResult :=
  let (db1, newJobs) := poll_category db category_id probe fetch now duration
  if newJobs.isEmpty then { db := db1, email_tasks := [], telegram_tasks := [] }
  else process_new_jobs db1 newJobs category_id now max_batch

/-- A sequence of synchronizer persistence calls, one per
`(category_id, candidates, timestamp)` triple. -/
def run_saves (db : DB) : List (Nat × List JobData × Nat) → DB
  | [] => db
  | c :: rest => run_saves (save_new_jobs db c.1 c.2.1 c.2.2).1 rest

/-- Modelled from the spec: channel eligibility keyed by the channel tag. -/
def eligible_for_channel (u : User) (ch : String) : Bool :=
  if ch = channel_email then email_eligible u
  else if ch = channel_telegram then telegram_eligible u
  else false

/-! ## Concrete fixtures (used only by witnesses and counterexamples) -/

/-- A store with no rows. -/
def db_empty : DB :=
  { categories := []
    users := []
    user_categories := []
    jobs := []
    notifications := []
    scraper_logs := []
    next_job_id := 1
    next_notification_id := 1 }

/-- A category row. -/
def cat_dev : Category :=
  { id := 1, name := "dev", mostaql_url := "m" }

/-- A persisted job row (fingerprint of title `"t"`, URL `"u"`). -/
def job_fix : Job :=
  { id := 1, title := "t", url := "u", content_hash := "t"
    hiring_rate := some 80, category_id := 1, scraped_at := 0 }

/-- A probe result that matches `job_fix` by both fingerprint and URL. -/
def cand_known : JobData := { title := "t", url := "u" }

/-- A candidate matching nothing in any fixture store. -/
def cand_a : JobData := { title := "a", url := "ua" }

/-- Two candidates sharing one URL under different titles. -/
def cand_dup_url_1 : JobData := { title := "a", url := "u" }

/-- Second member of the shared-URL candidate pair. -/
def cand_dup_url_2 : JobData := { title := "b", url := "u" }

/-- Two candidates sharing one title (hence one fingerprint) under
different URLs. -/
def cand_dup_title_1 : JobData := { title := "t", url := "u1" }

/-- Second member of the shared-title candidate pair. -/
def cand_dup_title_2 : JobData := { title := "t", url := "u2" }

/-- A verified, email-opted-in recipient with no chat handle and a null
minimum-score filter. -/
def user_fix : User :=
  { id := 1, email := "e1", verified := true, token := "k1"
    unsubscribed := false, receive_email := true, receive_telegram := false
    telegram_chat_id := none, min_hiring_rate := none
    last_notified_at := none }

/-- A second such recipient. -/
def user_fix2 : User := { user_fix with id := 2, email := "e2", token := "k2" }

/-- A third such recipient. -/
def user_fix3 : User := { user_fix with id := 3, email := "e3", token := "k3" }

/-- A fourth such recipient. -/
def user_fix4 : User := { user_fix with id := 4, email := "e4", token := "k4" }

/-- A fifth such recipient. -/
def user_fix5 : User := { user_fix with id := 5, email := "e5", token := "k5" }

/-- A pending delivery record awaiting dispatch. -/
def notif_fix : Notification :=
  { id := 1, user_id := 1, job_id := 1, channel := some channel_email
    sent_at := some 0, status := status_pending, error_message := none }

/-- A dispatch task referencing `notif_fix` and `user_fix`. -/
def task_fix : TaskRef := { notification_ids := [1], user_ids := [1] }

/-- A store holding one category and one persisted job. -/
def db_quick : DB := { db_empty with categories := [cat_dev], jobs := [job_fix] }

/-- A store holding one category only. -/
def db_cat : DB := { db_empty with categories := [cat_dev] }

/-- A store holding one pending delivery record and its recipient. -/
def db_dispatch : DB :=
  { db_empty with users := [user_fix], notifications := [notif_fix] }

/-- A store with one category and one subscribed recipient. -/
def db_router : DB :=
  { db_empty with
      categories := [cat_dev]
      users := [user_fix]
      user_categories := [(1, 1)] }

/-- A store with one category and five subscribed recipients. -/
def db_batch : DB :=
  { db_empty with
      categories := [cat_dev]
      users := [user_fix, user_fix2, user_fix3, user_fix4, user_fix5]
      user_categories := [(1, 1), (2, 1), (3, 1), (4, 1), (5, 1)] }

/-- The expected write-back result of a successful dispatch of `task_fix`
against `db_dispatch` at time 5. -/
def notif_sent_fix : Notification :=
  { notif_fix with status := status_sent, sent_at := some 5 }

/-- The record `create_pending_notifications db_router 9 [1] 7` creates. -/
def notif_created_fix : Notification :=
  { id := 1, user_id := 1, job_id := 9, channel := none
    sent_at := some 7, status := status_pending, error_message := none }

/-! ## Theorems -/

/-- Claim C4: quick-check short-circuit — when the probed first item already
matches a persisted item by fingerprint or URL, `poll_category` leaves the
store untouched and creates zero new items, whatever a full fetch would have
returned (the full-fetch behaviour is a parameter, and the result does not
depend on it); and a probe yielding no parseable item is a no-op, not an
error. -/
theorem quick_check_short_circuit (db : DB) (category_id : Nat)
    (first_job : JobData) (now : Nat) (duration : Rat)
    (h : _job_exists_in_db db.jobs first_job = true) :
    (∀ fetch, poll_category db category_id (some first_job) fetch now duration
        = (db, [])) ∧
    (∀ fetch, poll_category db category_id none fetch now duration
        = (db, [])) := by
  constructor <;> intro fetch <;>
    · unfold poll_category
      cases db.categories.find? fun c => c.id = category_id <;> simp [h]

/-- Witness for C4 at a concrete store: the fixture candidate matches the
persisted job by both attributes, and polling with it is a no-op whatever
the full fetch would have found. -/
theorem quick_check_short_circuit_witness :
    _job_exists_in_db db_quick.jobs cand_known = true ∧
    poll_category db_quick 1 (some cand_known) (.ok [cand_a]) 0 0
      = (db_quick, []) :=
  ⟨by decide,
    (quick_check_short_circuit db_quick 1 cand_known 0 0 (by decide)).1
      (.ok [cand_a])⟩

/-- Each advance of the shared rate-limit cursor moves it at least
`rate_limit_delay` past its previous value, whatever the acquisition time. -/
theorem cursor_step_ge (d c now : Rat) : c + d ≤ cursor_step d c now := by
  unfold cursor_step
  split
  · linarith
  · linarith

/-- Claim C9: rate-limit discipline — for any interleaving of the worker
pool's lock acquisitions, the pipeline-wide sequence of outbound-request
instants produced by the mutex-guarded cursor has every two consecutive
requests at least the configured minimum interval apart. -/
theorem rate_limiter_min_gap (d init : Rat) (acquires : List Rat) :
    List.Chain' (fun a b => a + d ≤ b) (issue_times d init acquires) := by
  induction acquires generalizing init with
  | nil => simp [issue_times]
  | cons now rest ih =>
    cases rest with
    | nil => simp [issue_times]
    | cons b bs =>
      simp only [issue_times]
      exact List.Chain'.cons (cursor_step_ge d (cursor_step d init now) b)
        (by simpa [issue_times] using ih (cursor_step d init now))

/-- Every row built by `mk_pending_rows` is a pending record carrying the
creation-time default in `sent_at` and NULLs elsewhere. -/
theorem mem_mk_pending_rows {job_id now : Nat} {uids : List Nat} {nid : Nat}
    {n : Notification} (h : n ∈ mk_pending_rows job_id now uids nid) :
    n.status = status_pending ∧ n.sent_at = some now ∧ n.channel = none ∧
      n.error_message = none ∧ n.job_id = job_id := by
  induction uids generalizing nid with
  | nil => simp [mk_pending_rows] at h
  | cons uid rest ih =>
    simp only [mk_pending_rows, List.mem_cons] at h
    rcases h with h | h
    · subst h; exact ⟨rfl, rfl, rfl, rfl, rfl⟩
    · exact ih h

/-- Shape of the rows after a status write-back: each is either the untouched
original or the original overwritten with the outcome fields. -/
theorem mem_update_notifications {db : DB} {task : TaskRef} {success : Bool}
    {err : Option String} {now : Nat} {n : Notification}
    (h : n ∈ (_update_notification_status db task success err now).notifications) :
    ∃ m ∈ db.notifications,
      n = if task.notification_ids.contains m.id then
            { m with
                status := if success then status_sent else status_failed
                sent_at := if success then some now else none
                error_message := err }
          else m := by
  simp only [_update_notification_status, List.mem_map] at h
  obtain ⟨m, hm, hn⟩ := h
  exact ⟨m, hm, hn.symm⟩

/-- Claim C10 (implicit): a delivery record created by
`create_pending_notifications` is stored with status `pending` and a
non-null `sent_at` equal to its creation time (the column's current-time
default); and `sent_at` is nulled only by a failure write-back — a success
write-back never nulls it, a failure write-back nulls exactly the referenced
records. -/
theorem pending_records_sent_at_default (db : DB) (job_id : Nat)
    (user_ids : List Nat) (now : Nat) :
    (∀ n ∈ (create_pending_notifications db job_id user_ids now).notifications.drop
        db.notifications.length,
      n.status = status_pending ∧ n.sent_at = some now) ∧
    (∀ (task : TaskRef) (err : Option String) (now' : Nat) n,
      n ∈ (_update_notification_status db task true err now').notifications →
      n.sent_at = none → n ∈ db.notifications ∧ n.sent_at = none) ∧
    (∀ (task : TaskRef) (err : Option String) (now' : Nat) n,
      n ∈ (_update_notification_status db task false err now').notifications →
      task.notification_ids.contains n.id = true → n.sent_at = none) := by
  refine ⟨?_, ?_, ?_⟩
  · intro n hn
    rw [create_pending_notifications] at hn
    simp only [List.drop_left] at hn
    exact ⟨(mem_mk_pending_rows hn).1, (mem_mk_pending_rows hn).2.1⟩
  · intro task err now' n hn hnone
    obtain ⟨m, hm, hshape⟩ := mem_update_notifications hn
    by_cases hc : task.notification_ids.contains m.id = true
    · rw [if_pos hc] at hshape
      subst hshape
      simp at hnone
    · rw [if_neg hc] at hshape
      subst hshape
      exact ⟨hm, hnone⟩
  · intro task err now' n hn hc
    obtain ⟨m, hm, hshape⟩ := mem_update_notifications hn
    by_cases hcm : task.notification_ids.contains m.id = true
    · rw [if_pos hcm] at hshape
      subst hshape
      rfl
    · rw [if_neg hcm] at hshape
      subst hshape
      exact absurd hc hcm

/-- Witness for C10 at a concrete store: the record created for the fixture
recipient is pending with `sent_at` equal to the creation time 7. -/
theorem pending_records_sent_at_default_witness :
    notif_created_fix ∈
      (create_pending_notifications db_router 9 [1] 7).notifications.drop
        db_router.notifications.length ∧
    (notif_created_fix.status = status_pending ∧
      notif_created_fix.sent_at = some 7) :=
  ⟨by decide,
    (pending_records_sent_at_default db_router 9 [1] 7).1 notif_created_fix
      (by decide)⟩

/-- Claim C7 (amended): dispatch outcome write-back.  On a successful
transport send every referenced record becomes `sent` with a timestamp and a
NULL error detail and every referenced recipient's last-notified timestamp is
refreshed, in the same single transaction; when the transport raises, every
referenced record becomes `failed` carrying the raised message and no
timestamp; when the transport reports failure by returning false, every
referenced record becomes `failed` with a NULL error detail and no
timestamp; the write-back never produces `pending` and writes `sent` only
with a NULL error detail; unreferenced records are untouched; and a
processed task is consumed from the queue, never re-queued. -/
theorem dispatch_writeback (db : DB) (task : TaskRef) (now : Nat) :
    (∀ n ∈ (run_one_task db task (.ok true) now).notifications,
      task.notification_ids.contains n.id = true →
      n.status = status_sent ∧ n.sent_at = some now ∧
        n.error_message = none) ∧
    (∀ u ∈ (run_one_task db task (.ok true) now).users,
      task.user_ids.contains u.id = true → u.last_notified_at = some now) ∧
    (∀ msg, ∀ n ∈ (run_one_task db task (.exn msg) now).notifications,
      task.notification_ids.contains n.id = true →
      n.status = status_failed ∧ n.sent_at = none ∧
        n.error_message = some msg) ∧
    (∀ n ∈ (run_one_task db task (.ok false) now).notifications,
      task.notification_ids.contains n.id = true →
      n.status = status_failed ∧ n.sent_at = none ∧
        n.error_message = none) ∧
    (∀ outcome, ∀ n ∈ (run_one_task db task outcome now).notifications,
      task.notification_ids.contains n.id = true →
      n.status ≠ status_pending ∧
        (n.status = status_sent → n.error_message = none)) ∧
    (∀ outcome, ∀ n ∈ (run_one_task db task outcome now).notifications,
      task.notification_ids.contains n.id = false → n ∈ db.notifications) ∧
    (∀ outcome (queue : List TaskRef),
      (worker_step db queue outcome now).2 = queue.tail) := by
  have key : ∀ (success : Bool) (err : Option String) (n : Notification),
      n ∈ (_update_notification_status db task success err now).notifications →
      task.notification_ids.contains n.id = true →
      n.status = (if success then status_sent else status_failed) ∧
        n.sent_at = (if success then some now else none) ∧
        n.error_message = err := by
    intro success err n hn hc
    obtain ⟨m, hm, hshape⟩ := mem_update_notifications hn
    by_cases hcm : task.notification_ids.contains m.id = true
    · rw [if_pos hcm] at hshape
      subst hshape
      exact ⟨rfl, rfl, rfl⟩
    · rw [if_neg hcm] at hshape
      subst hshape
      exact absurd hc hcm
  have untouched : ∀ (success : Bool) (err : Option String) (n : Notification),
      n ∈ (_update_notification_status db task success err now).notifications →
      task.notification_ids.contains n.id = false → n ∈ db.notifications := by
    intro success err n hn hc
    obtain ⟨m, hm, hshape⟩ := mem_update_notifications hn
    by_cases hcm : task.notification_ids.contains m.id = true
    · rw [if_pos hcm] at hshape
      subst hshape
      simp at hc
      exact absurd hcm (by simp [hc])
    · rw [if_neg hcm] at hshape
      subst hshape
      exact hm
  refine ⟨?_, ?_, ?_, ?_, ?_, ?_, ?_⟩
  · intro n hn hc
    simpa using key true none n hn hc
  · intro u hu hc
    simp only [run_one_task, _update_notification_status] at hu
    by_cases hne : task.user_ids.isEmpty
    · simp [hne] at hu
      have : task.user_ids = [] := List.isEmpty_iff.mp hne
      rw [this] at hc
      simp at hc
    · simp [hne] at hu
      obtain ⟨v, hv, hshape⟩ := hu
      by_cases hcv : v.id ∈ task.user_ids
      · rw [if_pos hcv] at hshape
        subst hshape
        rfl
      · rw [if_neg hcv] at hshape
        subst hshape
        simp at hc
        exact absurd hc hcv
  · intro msg n hn hc
    simpa using key false (some msg) n hn hc
  · intro n hn hc
    simpa using key false none n hn hc
  · intro outcome n hn hc
    rcases outcome with success | msg
    · rcases success with _ | _
      · obtain ⟨h1, h2, h3⟩ := key false none n hn hc
        simp only [if_neg Bool.false_ne_true] at h1
        constructor
        · rw [h1]; decide
        · intro hs; rw [h1] at hs; exact absurd hs (by decide)
      · obtain ⟨h1, h2, h3⟩ := key true none n hn hc
        simp only [if_pos rfl] at h1 h3
        constructor
        · rw [h1]; decide
        · intro _; exact h3
    · obtain ⟨h1, h2, h3⟩ := key false (some msg) n hn hc
      simp only [if_neg Bool.false_ne_true] at h1
      constructor
      · rw [h1]; decide
      · intro hs; rw [h1] at hs; exact absurd hs (by decide)
  · intro outcome n hn hc
    rcases outcome with success | msg
    · exact untouched success none n hn hc
    · exact untouched false (some msg) n hn hc
  · intro outcome queue
    cases queue <;> rfl

/-- Witness for C7 at a concrete store: a successful dispatch of the fixture
task marks the fixture record sent at time 5 with no error detail. -/
theorem dispatch_writeback_witness :
    notif_sent_fix ∈
      (run_one_task db_dispatch task_fix (.ok true) 5).notifications ∧
    (notif_sent_fix.status = status_sent ∧ notif_sent_fix.sent_at = some 5 ∧
      notif_sent_fix.error_message = none) :=
  ⟨by decide,
    (dispatch_writeback db_dispatch task_fix 5).1 notif_sent_fix (by decide)
      (by decide)⟩

/-- Counterexample to C7 as stated: when the transport reports failure by
returning false rather than raising (the normal failure path of the email
transport, which catches its own exceptions), the referenced record is
marked `failed` with a NULL error detail — not with the transport error
message as the claim asserts. -/
theorem dispatch_writeback_counterexample :
    ¬ (∀ n ∈ (run_one_task db_dispatch task_fix (.ok false) 5).notifications,
        task_fix.notification_ids.contains n.id = true →
        n.error_message ≠ none) := by
  decide

/-- The rows built by `mk_new_jobs` carry exactly the candidates' URLs, in
order, whatever ids and timestamp are assigned. -/
theorem mk_new_jobs_map_url (cid : Nat) (l : List JobData) (nid now : Nat) :
    (mk_new_jobs cid l nid now).map (·.url) = l.map (·.url) := by
  induction l generalizing nid with
  | nil => simp [mk_new_jobs]
  | cons a as ih => simp [mk_new_jobs, ih]

/-- Every row built by `mk_new_jobs` reproduces some candidate's title, URL
and fingerprint. -/
theorem mem_mk_new_jobs {cid : Nat} {l : List JobData} {nid now : Nat}
    {j : Job} (h : j ∈ mk_new_jobs cid l nid now) :
    ∃ d ∈ l, j.title = d.title ∧ j.url = d.url ∧
      j.content_hash = hash_content d.title := by
  induction l generalizing nid with
  | nil => simp [mk_new_jobs] at h
  | cons a as ih =>
    simp only [mk_new_jobs, List.mem_cons] at h
    rcases h with h | h
    · exact ⟨a, List.mem_cons_self a as, by simp [h]⟩
    · obtain ⟨d, hd, hj⟩ := ih h
      exact ⟨d, List.mem_cons_of_mem a hd, hj⟩

/-- Conversely, every candidate yields a row of `mk_new_jobs` with its URL
and fingerprint. -/
theorem mk_new_jobs_mem_of {l : List JobData} {c : JobData} (hc : c ∈ l) :
    ∀ cid nid now : Nat, ∃ j ∈ mk_new_jobs cid l nid now, j.url = c.url ∧
      j.content_hash = hash_content c.title := by
  induction l with
  | nil => simp at hc
  | cons a as ih =>
    intro cid nid now
    rcases List.mem_cons.mp hc with h | h
    · subst h
      exact ⟨_, List.mem_cons_self _ _, rfl, rfl⟩
    · obtain ⟨j, hj, hp⟩ := ih h cid (nid + 1) now
      exact ⟨j, List.mem_cons_of_mem _ hj, hp⟩

/-- The commit constraint check depends only on the inserted rows' URLs. -/
theorem commit_hits_congr {ex : List Job} {n1 n2 : List Job}
    (h : n1.map (·.url) = n2.map (·.url)) :
    commit_hits_unique_url ex n1 = commit_hits_unique_url ex n2 := by
  have hany : ∀ (m : List Job),
      m.any (fun n => ex.any fun e => e.url == n.url)
        = (m.map (·.url)).any (fun u => ex.any fun e => e.url == u) := by
    intro m
    induction m with
    | nil => rfl
    | cons a as ih =>
      simp only [List.any_cons, List.map_cons]
      rw [ih]
  unfold commit_hits_unique_url
  rw [hany, hany, h]

/-- A `save_new_jobs` call all of whose candidates are already known changes
nothing and returns the empty list. -/
theorem save_new_jobs_of_no_fresh (db : DB) (cid : Nat) (cands : List JobData)
    (t : Nat) (h : fresh_candidates db.jobs cands = []) :
    save_new_jobs db cid cands t = (db, []) := by
  unfold save_new_jobs
  rw [h]
  simp [mk_new_jobs, commit_hits_unique_url, has_dup]

/-- After a committed `save_new_jobs` call, every candidate of the call
matches some persisted row by fingerprint or URL. -/
theorem save_covered (db : DB) (cid : Nat) (cands : List JobData) (t : Nat)
    (hcf : commit_hits_unique_url db.jobs
      (mk_new_jobs cid (fresh_candidates db.jobs cands) db.next_job_id t)
        = false) :
    ∀ c ∈ cands, _job_exists_in_db (save_new_jobs db cid cands t).1.jobs c
      = true := by
  intro c hc
  have hjobs : (save_new_jobs db cid cands t).1.jobs
      = db.jobs ++ mk_new_jobs cid (fresh_candidates db.jobs cands)
          db.next_job_id t := by
    unfold save_new_jobs
    simp [hcf]
  rw [hjobs]
  by_cases hex : _job_exists_in_db db.jobs c = true
  · unfold _job_exists_in_db at hex ⊢
    rw [List.any_append, hex]
    rfl
  · have hfc : c ∈ fresh_candidates db.jobs cands := by
      unfold fresh_candidates
      rw [List.mem_filter]
      exact ⟨hc, by simp [Bool.not_eq_true] at hex ⊢; exact hex⟩
    obtain ⟨j, hj, hurl, _⟩ := mk_new_jobs_mem_of hfc cid db.next_job_id t
    unfold _job_exists_in_db
    rw [List.any_append]
    have : (mk_new_jobs cid (fresh_candidates db.jobs cands) db.next_job_id
        t).any (fun jb =>
          jb.content_hash == hash_content c.title || jb.url == c.url)
        = true :=
      List.any_eq_true.mpr ⟨j, hj, by simp [hurl]⟩
    rw [this]
    simp

/-- Claim C2 (amended): idempotence of the synchronizer's persistence step —
running `save_new_jobs` twice on the same candidate list persists zero new
items the second time and leaves the store unchanged; moreover, whenever the
first run's commit succeeded, every candidate afterwards matches a persisted
item by fingerprint or URL. -/
theorem save_new_jobs_idempotent (db : DB) (cid : Nat) (cands : List JobData)
    (t1 t2 : Nat) :
    (save_new_jobs (save_new_jobs db cid cands t1).1 cid cands t2).2 = [] ∧
    (save_new_jobs (save_new_jobs db cid cands t1).1 cid cands t2).1
      = (save_new_jobs db cid cands t1).1 ∧
    (commit_hits_unique_url db.jobs
        (mk_new_jobs cid (fresh_candidates db.jobs cands) db.next_job_id t1)
          = false →
      ∀ c ∈ cands,
        _job_exists_in_db (save_new_jobs db cid cands t1).1.jobs c = true) := by
  by_cases hcommit : commit_hits_unique_url db.jobs
      (mk_new_jobs cid (fresh_candidates db.jobs cands) db.next_job_id t1)
        = true
  · have h1 : save_new_jobs db cid cands t1 = (db, []) := by
      unfold save_new_jobs
      simp [hcommit]
    have hc2 : commit_hits_unique_url db.jobs
        (mk_new_jobs cid (fresh_candidates db.jobs cands) db.next_job_id t2)
          = true := by
      rw [commit_hits_congr
        ((mk_new_jobs_map_url cid (fresh_candidates db.jobs cands)
          db.next_job_id t2).trans
          (mk_new_jobs_map_url cid (fresh_candidates db.jobs cands)
            db.next_job_id t1).symm)]
      exact hcommit
    have h2 : save_new_jobs db cid cands t2 = (db, []) := by
      unfold save_new_jobs
      simp [hc2]
    refine ⟨?_, ?_, ?_⟩
    · rw [h1]
      simpa using congrArg Prod.snd h2
    · rw [h1]
      simpa using congrArg Prod.fst h2
    · intro hfalse
      rw [hfalse] at hcommit
      exact absurd hcommit (by decide)
  · have hcf : commit_hits_unique_url db.jobs
        (mk_new_jobs cid (fresh_candidates db.jobs cands) db.next_job_id t1)
          = false := Bool.not_eq_true _ |>.mp hcommit
    have hcov := save_covered db cid cands t1 hcf
    have hfresh2 : fresh_candidates (save_new_jobs db cid cands t1).1.jobs
        cands = [] := by
      unfold fresh_candidates
      rw [List.filter_eq_nil_iff]
      intro c hc
      simp [hcov c hc]
    have h2 := save_new_jobs_of_no_fresh (save_new_jobs db cid cands t1).1
      cid cands t2 hfresh2
    refine ⟨?_, ?_, fun _ => hcov⟩
    · rw [h2]
    · rw [h2]

/-- Witness for C2 at a concrete store: a two-candidate call against the
empty store commits, and afterwards the first candidate matches a persisted
item. -/
theorem save_new_jobs_idempotent_witness :
    commit_hits_unique_url db_empty.jobs
        (mk_new_jobs 1 (fresh_candidates db_empty.jobs [cand_a, cand_known])
          db_empty.next_job_id 0) = false ∧
    _job_exists_in_db (save_new_jobs db_empty 1 [cand_a, cand_known] 0).1.jobs
      cand_a = true :=
  ⟨by decide,
    (save_new_jobs_idempotent db_empty 1 [cand_a, cand_known] 0 1).2.2
      (by decide) cand_a (by decide)⟩

/-- Counterexample to C2 as stated: for a candidate list whose two entries
share a URL, both runs roll back on the UNIQUE constraint — the second run
still persists zero items, but the claim's parenthetical ("every candidate
then matches an existing Item by fingerprint or URL") is false, since
nothing was ever persisted. -/
theorem save_new_jobs_idempotence_counterexample :
    ¬ ((save_new_jobs
          (save_new_jobs db_empty 1 [cand_dup_url_1, cand_dup_url_2] 0).1 1
          [cand_dup_url_1, cand_dup_url_2] 1).2 = [] ∧
        ∀ c ∈ [cand_dup_url_1, cand_dup_url_2],
          _job_exists_in_db
            (save_new_jobs db_empty 1 [cand_dup_url_1, cand_dup_url_2] 0).1.jobs
            c = true) := by
  decide

/-- `has_dup` is the boolean complement of `Nodup`. -/
theorem has_dup_eq_false_iff (l : List String) : has_dup l = false ↔ l.Nodup := by
  induction l with
  | nil => simp [has_dup]
  | cons a as ih =>
    simp only [has_dup, Bool.or_eq_false_iff, List.nodup_cons, ih]
    simp

/-- One `save_new_jobs` call preserves pairwise-distinct URLs among the
persisted rows: either it rolls back, or the UNIQUE-constraint check it just
passed guarantees the inserted URLs are fresh and mutually distinct. -/
theorem save_new_jobs_url_nodup (db : DB) (cid : Nat) (cands : List JobData)
    (t : Nat) (h : (db.jobs.map (·.url)).Nodup) :
    ((save_new_jobs db cid cands t).1.jobs.map (·.url)).Nodup := by
  by_cases hc : commit_hits_unique_url db.jobs
      (mk_new_jobs cid (fresh_candidates db.jobs cands) db.next_job_id t)
        = true
  · unfold save_new_jobs
    simp only [hc, if_pos]
    exact h
  · have hcf : commit_hits_unique_url db.jobs
        (mk_new_jobs cid (fresh_candidates db.jobs cands) db.next_job_id t)
          = false := Bool.not_eq_true _ |>.mp hc
    have hjobs : (save_new_jobs db cid cands t).1.jobs
        = db.jobs ++ mk_new_jobs cid (fresh_candidates db.jobs cands)
            db.next_job_id t := by
      unfold save_new_jobs
      simp [hcf]
    rw [hjobs, List.map_append, List.nodup_append]
    unfold commit_hits_unique_url at hcf
    rw [Bool.or_eq_false_iff] at hcf
    obtain ⟨hany, hdup⟩ := hcf
    refine ⟨h, (has_dup_eq_false_iff _).mp hdup, ?_⟩
    intro u hu hu2
    obtain ⟨e, he, heu⟩ := List.mem_map.mp hu
    obtain ⟨n, hn, hnu⟩ := List.mem_map.mp hu2
    rw [List.any_eq_false] at hany
    have h1 := hany n hn
    rw [Bool.not_eq_true, List.any_eq_false] at h1
    have h2 := h1 e he
    simp [heu, hnu] at h2

/-- Claim C3 (amended): after any sequence of `save_new_jobs` calls starting
from a store with pairwise-distinct URLs, no two persisted items share a
URL; and a candidate matching an existing persisted item by fingerprint or
URL is never persisted again by a call.  (The fingerprint half of the claim
fails within a single batch — see the counterexample — because the dedup
query, running with `autoflush=False`, checks every candidate against the
same committed snapshot and `content_hash` carries no UNIQUE constraint.) -/
theorem save_new_jobs_url_unique (db : DB)
    (calls : List (Nat × List JobData × Nat)) (cid : Nat)
    (cands : List JobData) (t : Nat)
    (h : (db.jobs.map (·.url)).Nodup) :
    ((run_saves db calls).jobs.map (·.url)).Nodup ∧
    (∀ c ∈ cands, _job_exists_in_db db.jobs c = true →
      ∀ j ∈ (save_new_jobs db cid cands t).2,
        ¬(j.title = c.title ∧ j.url = c.url)) := by
  constructor
  · clear cid cands t
    induction calls generalizing db with
    | nil => exact h
    | cons call rest ih =>
      exact ih _ (save_new_jobs_url_nodup db call.1 call.2.1 call.2.2 h)
  · intro c hc hex j hj hcontra
    by_cases hcommit : commit_hits_unique_url db.jobs
        (mk_new_jobs cid (fresh_candidates db.jobs cands) db.next_job_id t)
          = true
    · have : (save_new_jobs db cid cands t).2 = [] := by
        unfold save_new_jobs
        simp [hcommit]
      rw [this] at hj
      simp at hj
    · have hcf : commit_hits_unique_url db.jobs
          (mk_new_jobs cid (fresh_candidates db.jobs cands) db.next_job_id t)
            = false := Bool.not_eq_true _ |>.mp hcommit
      have hsnd : (save_new_jobs db cid cands t).2
          = mk_new_jobs cid (fresh_candidates db.jobs cands)
              db.next_job_id t := by
        unfold save_new_jobs
        simp [hcf]
      rw [hsnd] at hj
      obtain ⟨d, hd, hjt, hju, _⟩ := mem_mk_new_jobs hj
      have hdt : d.title = c.title := hjt.symm.trans hcontra.1
      have hdu : d.url = c.url := hju.symm.trans hcontra.2
      have hdfresh := (List.mem_filter.mp hd).2
      have : _job_exists_in_db db.jobs d = _job_exists_in_db db.jobs c := by
        unfold _job_exists_in_db hash_content
        rw [hdt, hdu]
      rw [this, hex] at hdfresh
      simp at hdfresh

/-- Witness for C3 at a concrete store: the empty store has distinct URLs,
and they remain distinct after a persistence call. -/
theorem save_new_jobs_url_unique_witness :
    (db_empty.jobs.map (·.url)).Nodup ∧
    ((run_saves db_empty [(1, [cand_a], 0)]).jobs.map (·.url)).Nodup :=
  ⟨by decide,
    (save_new_jobs_url_unique db_empty [(1, [cand_a], 0)] 1 [] 0
      (by decide)).1⟩

/-- Counterexample to C3 as stated: a single call whose candidate list holds
two candidates with the same title but different URLs persists both — the
store then holds two items sharing a content fingerprint, because the dedup
query sees neither pending row (`autoflush=False`) and `content_hash` has no
UNIQUE constraint. -/
theorem save_new_jobs_fingerprint_counterexample :
    ¬ ((save_new_jobs db_empty 1 [cand_dup_title_1, cand_dup_title_2]
          0).1.jobs.map (·.content_hash)).Nodup := by
  decide

/-- `save_new_jobs` touches only the `jobs` table and the job counter. -/
theorem save_new_jobs_preserves (db : DB) (cid : Nat) (cands : List JobData)
    (t : Nat) :
    (save_new_jobs db cid cands t).1.scraper_logs = db.scraper_logs ∧
    (save_new_jobs db cid cands t).1.categories = db.categories ∧
    (save_new_jobs db cid cands t).1.users = db.users ∧
    (save_new_jobs db cid cands t).1.user_categories = db.user_categories ∧
    (save_new_jobs db cid cands t).1.notifications = db.notifications ∧
    (save_new_jobs db cid cands t).1.next_notification_id
      = db.next_notification_id := by
  unfold save_new_jobs
  by_cases hc : commit_hits_unique_url db.jobs
      (mk_new_jobs cid (fresh_candidates db.jobs cands) db.next_job_id t)
        = true <;>
    simp [hc]

/-- Updating the category row by id commutes with `find?` by that id. -/
theorem find?_map_update_by_id (l : List Category) (cid : Nat)
    (f : Category → Category) (hf : ∀ c, (f c).id = c.id) (cat : Category)
    (h : l.find? (fun c => c.id = cid) = some cat) :
    (l.map fun c => if c.id = cid then f c else c).find?
      (fun c => c.id = cid) = some (f cat) := by
  induction l with
  | nil => simp at h
  | cons a as ih =>
    by_cases ha : a.id = cid
    · rw [List.find?_cons_of_pos _ (by simp [ha])] at h
      have hac : a = cat := by injection h
      subst hac
      rw [List.map_cons, if_pos ha,
        List.find?_cons_of_pos _ (by simp [hf a, ha])]
    · rw [List.find?_cons_of_neg _ (by simp [ha])] at h
      rw [List.map_cons, if_neg ha, List.find?_cons_of_neg _ (by simp [ha])]
      exact ih h

/-- The run-status update leaves the category findable with the stamped
timestamp and the reset or bumped failure counter. -/
theorem update_category_scrape_status_find (db : DB) (cid : Nat)
    (success : Bool) (now : Nat) (cat : Category)
    (h : db.categories.find? (fun c => c.id = cid) = some cat) :
    (update_category_scrape_status db cid success now).categories.find?
      (fun c => c.id = cid)
      = some { cat with
                 last_scraped_at := some now
                 scrape_failures :=
                   if success then some 0
                   else some ((cat.scrape_failures.getD 0) + 1) } := by
  unfold update_category_scrape_status
  exact find?_map_update_by_id db.categories cid
    (fun c =>
      { c with
          last_scraped_at := some now
          scrape_failures :=
            if success then some 0
            else some ((c.scrape_failures.getD 0) + 1) })
    (fun c => rfl) cat h

/-- Claim C8: run logging and failure counter — a completed synchronizer run
for an existing category appends exactly one `ScraperLog` row, classified
`success` with the persisted-item count on success, `blocked` on an HTTP 429
failure and `error` on any other failure (with the error message and zero
items), always carrying the run's duration; and the same run stamps the
category's `last_scraped_at` and sets its failure counter to zero on success
or to its previous (zero-defaulted) value plus one on failure. -/
theorem run_logging_and_failure_counter (db : DB) (category_id : Nat)
    (now : Nat) (duration : Rat) (cat : Category)
    (hfind : db.categories.find? (fun c => c.id = category_id) = some cat) :
    (∀ rows,
      (scrape_category_with_logging db category_id (.ok rows) now
          duration).1.scraper_logs
        = db.scraper_logs ++
            [{ category_id := some category_id
               status := outcome_success
               jobs_found := (scrape_category_with_logging db category_id
                 (.ok rows) now duration).2.length
               duration_seconds := duration
               error_message := none
               scraped_at := now }] ∧
      (scrape_category_with_logging db category_id (.ok rows) now
          duration).1.categories.find? (fun c => c.id = category_id)
        = some { cat with
                   last_scraped_at := some now
                   scrape_failures := some 0 }) ∧
    (∀ status msg,
      (scrape_category_with_logging db category_id (.httpError status msg)
          now duration).1.scraper_logs
        = db.scraper_logs ++
            [{ category_id := some category_id
               status := if status = 429 then outcome_blocked else outcome_error
               jobs_found := 0
               duration_seconds := duration
               error_message := some msg
               scraped_at := now }] ∧
      (scrape_category_with_logging db category_id (.httpError status msg)
          now duration).1.categories.find? (fun c => c.id = category_id)
        = some { cat with
                   last_scraped_at := some now
                   scrape_failures :=
                     some ((cat.scrape_failures.getD 0) + 1) }) ∧
    (∀ msg,
      (scrape_category_with_logging db category_id (.exn msg) now
          duration).1.scraper_logs
        = db.scraper_logs ++
            [{ category_id := some category_id
               status := outcome_error
               jobs_found := 0
               duration_seconds := duration
               error_message := some msg
               scraped_at := now }] ∧
      (scrape_category_with_logging db category_id (.exn msg) now
          duration).1.categories.find? (fun c => c.id = category_id)
        = some { cat with
                   last_scraped_at := some now
                   scrape_failures :=
                     some ((cat.scrape_failures.getD 0) + 1) }) := by
  refine ⟨?_, ?_, ?_⟩
  · intro rows
    have hres : scrape_category_with_logging db category_id (.ok rows) now
        duration
        = (update_category_scrape_status
            (log_scrape_result (save_new_jobs db category_id rows now).1
              category_id outcome_success
              (save_new_jobs db category_id rows now).2.length duration none
              now)
            category_id true now,
          (save_new_jobs db category_id rows now).2) := by
      unfold scrape_category_with_logging
      rw [hfind]
    rw [hres]
    have hpres := save_new_jobs_preserves db category_id rows now
    constructor
    · simp [update_category_scrape_status, log_scrape_result, hpres.1]
    · have hfind1 : (log_scrape_result (save_new_jobs db category_id rows
          now).1 category_id outcome_success
          (save_new_jobs db category_id rows now).2.length duration none
          now).categories.find? (fun c => c.id = category_id) = some cat := by
        simp [log_scrape_result, hpres.2.1, hfind]
      simpa using update_category_scrape_status_find _ category_id true now
        cat hfind1
  · intro status msg
    have hres : scrape_category_with_logging db category_id
        (.httpError status msg) now duration
        = (update_category_scrape_status
            (log_scrape_result db category_id
              (if status = 429 then outcome_blocked else outcome_error) 0
              duration (some msg) now)
            category_id false now, []) := by
      unfold scrape_category_with_logging
      rw [hfind]
    rw [hres]
    constructor
    · simp [update_category_scrape_status, log_scrape_result]
    · have hfind1 : (log_scrape_result db category_id
          (if status = 429 then outcome_blocked else outcome_error) 0
          duration (some msg) now).categories.find?
            (fun c => c.id = category_id) = some cat := by
        simp [log_scrape_result, hfind]
      simpa using update_category_scrape_status_find _ category_id false now
        cat hfind1
  · intro msg
    have hres : scrape_category_with_logging db category_id (.exn msg) now
        duration
        = (update_category_scrape_status
            (log_scrape_result db category_id outcome_error 0 duration
              (some msg) now)
            category_id false now, []) := by
      unfold scrape_category_with_logging
      rw [hfind]
    rw [hres]
    constructor
    · simp [update_category_scrape_status, log_scrape_result]
    · have hfind1 : (log_scrape_result db category_id outcome_error 0
          duration (some msg) now).categories.find?
            (fun c => c.id = category_id) = some cat := by
        simp [log_scrape_result, hfind]
      simpa using update_category_scrape_status_find _ category_id false now
        cat hfind1

/-- Witness for C8 at a concrete store: a successful empty run against the
fixture category appends one `success` log row with zero items. -/
theorem run_logging_and_failure_counter_witness :
    db_cat.categories.find? (fun c => c.id = 1) = some cat_dev ∧
    (scrape_category_with_logging db_cat 1 (.ok []) 3 2).1.scraper_logs
      = db_cat.scraper_logs ++
          [{ category_id := some 1
             status := outcome_success
             jobs_found := (scrape_category_with_logging db_cat 1 (.ok []) 3
               2).2.length
             duration_seconds := 2
             error_message := none
             scraped_at := 3 }] :=
  ⟨by decide,
    ((run_logging_and_failure_counter db_cat 1 3 2 cat_dev (by decide)).1
      []).1⟩

/-- Rows after id assignment are the original rows with fresh ids. -/
theorem mem_assign_ids {nid : Nat} {l : List Notification} {n : Notification}
    (h : n ∈ assign_ids nid l) : ∃ m ∈ l, ∃ i, n = { m with id := i } := by
  induction l generalizing nid with
  | nil => simp [assign_ids] at h
  | cons a as ih =>
    simp only [assign_ids, List.mem_cons] at h
    rcases h with h | h
    · exact ⟨a, List.mem_cons_self a as, nid, h⟩
    · obtain ⟨m, hm, i, hn⟩ := ih h
      exact ⟨m, List.mem_cons_of_mem _ hm, i, hn⟩

/-- Counting with an id-blind predicate is unaffected by id assignment. -/
theorem countP_assign_ids (p : Notification → Bool)
    (hp : ∀ (n : Notification) (i : Nat), p { n with id := i } = p n)
    (nid : Nat) (l : List Notification) :
    (assign_ids nid l).countP p = l.countP p := by
  induction l generalizing nid with
  | nil => rfl
  | cons a as ih =>
    simp only [assign_ids]
    rw [List.countP_cons, List.countP_cons, hp, ih]

/-- Every record of a recipient's block belongs to that recipient and is
pending. -/
theorem mem_user_block {u : User} {new_jobs : List Job} {now : Nat}
    {n : Notification} (h : n ∈ user_block u new_jobs now) :
    n.user_id = u.id ∧ n.status = status_pending := by
  unfold user_block at h
  by_cases he : (filtered_jobs u new_jobs).isEmpty = true
  · rw [if_pos he] at h
    simp at h
  · rw [if_neg he] at h
    simp only [List.mem_flatMap, List.mem_map] at h
    obtain ⟨ch, _, j, _, hn⟩ := h
    subst hn
    exact ⟨rfl, rfl⟩

/-- Counting one item id inside a filtered list of distinct-id items. -/
theorem countP_id_filter (l : List Job) (q : Job → Bool) (j : Job)
    (hj : j ∈ l) (hnd : (l.map (·.id)).Nodup) :
    (l.filter q).countP (fun x => decide (x.id = j.id))
      = if q j then 1 else 0 := by
  induction l with
  | nil => simp at hj
  | cons a as ih =>
    rw [List.map_cons, List.nodup_cons] at hnd
    rcases List.mem_cons.mp hj with rfl | hj2
    · have hzero : (as.filter q).countP (fun x => decide (x.id = j.id))
          = 0 := by
        rw [List.countP_eq_zero]
        intro x hx
        have hxas := List.mem_of_mem_filter hx
        have : x.id ≠ j.id := fun he =>
          hnd.1 (he ▸ List.mem_map.mpr ⟨x, hxas, rfl⟩)
        simp [this]
      rw [List.filter_cons]
      by_cases hq : q j
      · rw [if_pos hq, List.countP_cons_of_pos _ _ (by simp), hzero, if_pos hq]
      · rw [if_neg hq, hzero, if_neg hq]
    · have haid : a.id ≠ j.id := by
        intro he
        exact hnd.1 (he ▸ List.mem_map.mpr ⟨j, hj2, rfl⟩)
      rw [List.filter_cons]
      by_cases hqa : q a
      · rw [if_pos hqa, List.countP_cons_of_neg _ _ (by simp [haid])]
        exact ih hj2 hnd.2
      · rw [if_neg hqa]
        exact ih hj2 hnd.2

/-- Exact delivery-record count inside one recipient's block: one record for
the triple (recipient, item, channel) precisely when the recipient is
eligible for the channel and the item passes their filter. -/
theorem user_block_countP (u : User) (new_jobs : List Job) (now : Nat)
    (j : Job) (ch : String) (hj : j ∈ new_jobs)
    (hjnd : (new_jobs.map (·.id)).Nodup)
    (hch : ch = channel_email ∨ ch = channel_telegram) :
    (user_block u new_jobs now).countP
      (fun n => decide (n.user_id = u.id) && decide (n.job_id = j.id) &&
        decide (n.channel = some ch))
      = if eligible_for_channel u ch && passes_filter u j then 1 else 0 := by
  unfold user_block
  by_cases hemp : (filtered_jobs u new_jobs).isEmpty = true
  · rw [if_pos hemp]
    have hpass : passes_filter u j = false := by
      rcases Bool.eq_false_or_eq_true (passes_filter u j) with h | h
      · exfalso
        have hmem : j ∈ filtered_jobs u new_jobs :=
          List.mem_filter.mpr ⟨hj, h⟩
        rw [List.isEmpty_iff] at hemp
        rw [hemp] at hmem
        simp at hmem
      · exact h
    simp [hpass]
  · rw [if_neg hemp]
    have hF : ∀ ch' : String,
        ((filtered_jobs u new_jobs).map fun j' =>
            mk_pending u ch' j' now).countP
          (fun n => decide (n.user_id = u.id) && decide (n.job_id = j.id) &&
            decide (n.channel = some ch))
          = if ch' = ch then (if passes_filter u j then 1 else 0) else 0 := by
      intro ch'
      rw [List.countP_map]
      by_cases hcc : ch' = ch
      · subst hcc
        have hfun : ((fun n => decide (n.user_id = u.id) &&
            decide (n.job_id = j.id) && decide (n.channel = some ch')) ∘
              fun j' => mk_pending u ch' j' now)
            = fun j' => decide (j'.id = j.id) := by
          funext j'
          simp [mk_pending, Function.comp]
        rw [hfun]
        rw [if_pos rfl]
        exact countP_id_filter new_jobs (passes_filter u) j hj hjnd
      · have hfun : ((fun n => decide (n.user_id = u.id) &&
            decide (n.job_id = j.id) && decide (n.channel = some ch)) ∘
              fun j' => mk_pending u ch' j' now)
            = fun _ => false := by
          funext j'
          simp [mk_pending, Function.comp, hcc]
        rw [hfun, if_neg hcc]
        simp
    unfold channel_tags
    rw [List.flatMap_append, List.countP_append]
    have hblock : ∀ (b : Bool) (ch' : String),
        ((if b then [ch'] else []).flatMap fun c =>
            (filtered_jobs u new_jobs).map fun j' => mk_pending u c j' now).countP
          (fun n => decide (n.user_id = u.id) && decide (n.job_id = j.id) &&
            decide (n.channel = some ch))
          = if b then
              (if ch' = ch then (if passes_filter u j then 1 else 0) else 0)
            else 0 := by
      intro b ch'
      cases b with
      | false => simp
      | true => simp only [if_pos, List.flatMap_cons, List.flatMap_nil,
          List.append_nil, if_true]; exact hF ch'
    rw [hblock, hblock]
    have hne : channel_email ≠ channel_telegram := by decide
    rcases hch with rfl | rfl
    · cases hee : email_eligible u <;> cases hpp : passes_filter u j <;>
        cases htt : telegram_eligible u <;>
          simp [eligible_for_channel, hee, hpp, htt, hne, Ne.symm hne]
    · cases hee : email_eligible u <;> cases hpp : passes_filter u j <;>
        cases htt : telegram_eligible u <;>
          simp [eligible_for_channel, hee, hpp, htt, hne, Ne.symm hne]

/-- Claim C5: router fan-out — the records created by a router run contain,
for every recipient in the store, every new item and either channel, exactly
one pending delivery record precisely when the recipient is subscribed to the
category, not unsubscribed, eligible for the channel, and the item passes the
recipient's minimum-score filter (a null filter passes everything, a non-null
filter requires a present score ≥ the filter); and every created record is
pending. -/
theorem router_fanout (db : DB) (new_jobs : List Job)
    (category_id now max_batch : Nat) (u : User) (j : Job) (ch : String)
    (hu : u ∈ db.users)
    (hund : (db.users.map (·.id)).Nodup)
    (hj : j ∈ new_jobs)
    (hjnd : (new_jobs.map (·.id)).Nodup)
    (hch : ch = channel_email ∨ ch = channel_telegram) :
    ((process_new_jobs db new_jobs category_id now
          max_batch).db.notifications.drop db.notifications.length).countP
      (fun n => decide (n.user_id = u.id) && decide (n.job_id = j.id) &&
        decide (n.channel = some ch))
      = (if db.user_categories.contains (u.id, category_id) &&
            !u.unsubscribed && eligible_for_channel u ch &&
            passes_filter u j
         then 1 else 0) ∧
    (∀ n ∈ (process_new_jobs db new_jobs category_id now
        max_batch).db.notifications.drop db.notifications.length,
      n.status = status_pending) := by
  have hdrop : (process_new_jobs db new_jobs category_id now
      max_batch).db.notifications.drop db.notifications.length
      = assign_ids db.next_notification_id
          (router_records (get_users_for_notification db category_id)
            new_jobs now) := by
    simp only [process_new_jobs]
    exact List.drop_left _ _
  rw [hdrop]
  constructor
  · rw [countP_assign_ids
      (fun n => decide (n.user_id = u.id) && decide (n.job_id = j.id) &&
        decide (n.channel = some ch))
      (fun n i => rfl)]
    have hzero : ∀ u' : User, u'.id ≠ u.id →
        (user_block u' new_jobs now).countP
          (fun n => decide (n.user_id = u.id) && decide (n.job_id = j.id) &&
            decide (n.channel = some ch)) = 0 := by
      intro u' hne
      rw [List.countP_eq_zero]
      intro n hn
      have h1 := (mem_user_block hn).1
      simp [h1, hne]
    have hmain : ∀ us : List User, (us.map (·.id)).Nodup →
        (∀ x ∈ us, x ∈ db.users) →
        (us.flatMap fun x => user_block x new_jobs now).countP
          (fun n => decide (n.user_id = u.id) && decide (n.job_id = j.id) &&
            decide (n.channel = some ch))
          = if u ∈ us then
              (user_block u new_jobs now).countP
                (fun n => decide (n.user_id = u.id) &&
                  decide (n.job_id = j.id) && decide (n.channel = some ch))
            else 0 := by
      intro us
      induction us with
      | nil => intro _ _; simp
      | cons a as ih =>
        intro hnd hsub
        rw [List.flatMap_cons, List.countP_append, List.map_cons,
          List.nodup_cons] at *
        by_cases hau : a = u
        · subst hau
          have hnotin : a ∉ as := fun hmem =>
            hnd.1 (List.mem_map.mpr ⟨a, hmem, rfl⟩)
          rw [ih hnd.2 (fun x hx => hsub x (List.mem_cons_of_mem _ hx)),
            if_neg hnotin, if_pos (List.mem_cons_self a as)]
          exact Nat.add_zero _
        · have haid : a.id ≠ u.id := fun he =>
            hau (List.inj_on_of_nodup_map hund
              (hsub a (List.mem_cons_self a as)) hu he)
          rw [hzero a haid, ih hnd.2
            (fun x hx => hsub x (List.mem_cons_of_mem _ hx)), Nat.zero_add]
          have hne2 : ¬ u = a := fun h => hau h.symm
          by_cases hmem : u ∈ as
          · rw [if_pos hmem, if_pos (List.mem_cons_of_mem _ hmem)]
          · rw [if_neg hmem, if_neg (by simp [List.mem_cons, hne2, hmem])]
    have husnd : ((get_users_for_notification db category_id).map
        (·.id)).Nodup :=
      ((List.filter_sublist db.users).map (·.id)).nodup hund
    have hussub : ∀ x ∈ get_users_for_notification db category_id,
        x ∈ db.users := fun x hx => (List.mem_filter.mp hx).1
    unfold router_records
    rw [hmain _ husnd hussub]
    by_cases hcond : (db.user_categories.contains (u.id, category_id) &&
        !u.unsubscribed) = true
    · have humem : u ∈ get_users_for_notification db category_id :=
        List.mem_filter.mpr ⟨hu, hcond⟩
      rw [if_pos humem,
        user_block_countP u new_jobs now j ch hj hjnd hch]
      rw [Bool.and_assoc, hcond]
      simp
    · have hnmem : u ∉ get_users_for_notification db category_id := by
        intro hmem
        exact hcond (List.mem_filter.mp hmem).2
      rw [if_neg hnmem]
      have hcf : (db.user_categories.contains (u.id, category_id) &&
          !u.unsubscribed) = false := by
        cases hxx : (db.user_categories.contains (u.id, category_id) &&
            !u.unsubscribed) with
        | false => rfl
        | true => exact absurd hxx hcond
      rw [hcf]
      simp
  · intro n hn
    obtain ⟨m, hm, i, hni⟩ := mem_assign_ids hn
    subst hni
    unfold router_records at hm
    obtain ⟨u', _, hmu⟩ := List.mem_flatMap.mp hm
    exact (mem_user_block hmu).2

/-- Witness for C5 at a concrete store: the fixture recipient is subscribed,
eligible and unfiltered, so the router creates exactly one email record for
the fixture job. -/
theorem router_fanout_witness :
    (user_fix ∈ db_router.users ∧ job_fix ∈ [job_fix]) ∧
    ((process_new_jobs db_router [job_fix] 1 0
        2).db.notifications.drop db_router.notifications.length).countP
      (fun n => decide (n.user_id = user_fix.id) &&
        decide (n.job_id = job_fix.id) &&
        decide (n.channel = some channel_email)) = 1 := by
  refine ⟨⟨by decide, by decide⟩, ?_⟩
  have h := (router_fanout db_router [job_fix] 1 0 2 user_fix job_fix
    channel_email (by decide) (by decide) (by decide) (by decide)
    (Or.inl rfl)).1
  rw [h]
  decide

/-- Claim C6: email batching — five email-eligible recipients sharing one
identical nonempty filtered item-set, under a configured maximum batch size
of 2, produce exactly three email dispatch tasks of sizes 2, 2 and 1 whose
blind-copy groups cover the five recipients exactly once in their original
order; and the chat channel is never batched — every chat dispatch task of
any router run addresses exactly one recipient. -/
theorem email_batching (db : DB) (new_jobs : List Job)
    (category_id now : Nat) (S : List Job) (u1 u2 u3 u4 u5 : User)
    (husers : get_users_for_notification db category_id
      = [u1, u2, u3, u4, u5])
    (hf1 : filtered_jobs u1 new_jobs = S) (hf2 : filtered_jobs u2 new_jobs = S)
    (hf3 : filtered_jobs u3 new_jobs = S) (hf4 : filtered_jobs u4 new_jobs = S)
    (hf5 : filtered_jobs u5 new_jobs = S) (hS : S ≠ [])
    (he1 : email_eligible u1 = true) (he2 : email_eligible u2 = true)
    (he3 : email_eligible u3 = true) (he4 : email_eligible u4 = true)
    (he5 : email_eligible u5 = true)
    (ht1 : telegram_eligible u1 = false) (ht2 : telegram_eligible u2 = false)
    (ht3 : telegram_eligible u3 = false) (ht4 : telegram_eligible u4 = false)
    (ht5 : telegram_eligible u5 = false) :
    ((process_new_jobs db new_jobs category_id now 2).email_tasks.map
        fun t => t.recipients.length) = [2, 2, 1] ∧
    ((process_new_jobs db new_jobs category_id now 2).email_tasks.flatMap
        fun t => t.recipients)
      = [u1.email, u2.email, u3.email, u4.email, u5.email] ∧
    (process_new_jobs db new_jobs category_id now 2).telegram_tasks = [] ∧
    (∀ (db' : DB) (jobs' : List Job) (cid' now' mb' : Nat),
      ∀ t ∈ (process_new_jobs db' jobs' cid' now' mb').telegram_tasks,
        t.user_ids.length = 1) := by
  have hiseF : S.isEmpty = false := by
    cases S with
    | nil => exact absurd rfl hS
    | cons a as => rfl
  have hgeneral : ∀ (db' : DB) (jobs' : List Job) (cid' now' mb' : Nat),
      ∀ t ∈ (process_new_jobs db' jobs' cid' now' mb').telegram_tasks,
        t.user_ids.length = 1 := by
    intro db' jobs' cid' now' mb' t ht
    simp only [process_new_jobs, List.mem_map] at ht
    obtain ⟨p, _, hp⟩ := ht
    subst hp
    rfl
  have hactive : ((get_users_for_notification db category_id).map
      (fun u => (u, filtered_jobs u new_jobs))).filter
        (fun p => !p.2.isEmpty)
      = [(u1, S), (u2, S), (u3, S), (u4, S), (u5, S)] := by
    rw [husers]
    simp [hf1, hf2, hf3, hf4, hf5, hiseF]
  have hemail : [(u1, S), (u2, S), (u3, S), (u4, S), (u5, S)].filter
      (fun p => email_eligible p.1)
      = [(u1, S), (u2, S), (u3, S), (u4, S), (u5, S)] := by
    simp [he1, he2, he3, he4, he5]
  have htele : [(u1, S), (u2, S), (u3, S), (u4, S), (u5, S)].filter
      (fun p => telegram_eligible p.1) = [] := by
    simp [ht1, ht2, ht3, ht4, ht5]
  have hgroup : group_by_itemset [(u1, S), (u2, S), (u3, S), (u4, S), (u5, S)]
      = [(S, [u1, u2, u3, u4, u5])] := by
    simp [group_by_itemset, insert_grouped]
  have hchunk : chunk_list 2 [u1, u2, u3, u4, u5]
      = [[u1, u2], [u3, u4], [u5]] := by
    simp [chunk_list]
  refine ⟨?_, ?_, ?_, hgeneral⟩
  · simp only [process_new_jobs, hactive, hemail, hgroup]
    simp only [List.flatMap_cons, List.flatMap_nil, List.append_nil,
      List.map_map]
    rw [hchunk]
    simp [EmailTask.recipients]
  · simp only [process_new_jobs, hactive, hemail, hgroup]
    simp only [List.flatMap_cons, List.flatMap_nil, List.append_nil,
      List.map_map]
    rw [hchunk]
    simp [EmailTask.recipients]
  · simp only [process_new_jobs, hactive, htele]
    simp

/-- Witness for C6 at a concrete store: the five fixture recipients share the
filtered item-set `[job_fix]`, and a run with batch size 2 yields tasks of
sizes 2, 2, 1. -/
theorem email_batching_witness :
    get_users_for_notification db_batch 1
      = [user_fix, user_fix2, user_fix3, user_fix4, user_fix5] ∧
    ((process_new_jobs db_batch [job_fix] 1 0 2).email_tasks.map
        fun t => t.recipients.length) = [2, 2, 1] :=
  ⟨by decide,
    (email_batching db_batch [job_fix] 1 0 [job_fix] user_fix user_fix2
      user_fix3 user_fix4 user_fix5 (by decide) (by decide) (by decide)
      (by decide) (by decide) (by decide) (by decide) (by decide) (by decide)
      (by decide) (by decide) (by decide) (by decide) (by decide) (by decide)
      (by decide) (by decide)).1⟩

/-- A batch group of one recipient always forms exactly one chunk. -/
theorem chunk_list_singleton (n : Nat) (x : User) :
    chunk_list n [x] = [[x]] := by
  cases n with
  | zero => simp [chunk_list]
  | succ m => simp [chunk_list]

/-- Claim C1: end-to-end scenario — when the probe reports an unknown item
and the full scrape of a category yields three candidates unknown to the
store (with three distinct URLs), and the category's sole eligible recipient
is verified, email-opted-in, not unsubscribed, chat-less and unfiltered,
then after the polling cycle exactly three pending delivery records exist
for that recipient, exactly one email dispatch task is enqueued carrying all
three items addressed to that recipient alone, and nothing reaches the chat
queue. -/
theorem polling_cycle_end_to_end (db : DB) (category_id : Nat)
    (cat : Category) (p c1 c2 c3 : JobData) (u : User) (now : Nat)
    (duration : Rat) (max_batch : Nat)
    (hcat : db.categories.find? (fun c => c.id = category_id) = some cat)
    (hp : _job_exists_in_db db.jobs p = false)
    (h1 : _job_exists_in_db db.jobs c1 = false)
    (h2 : _job_exists_in_db db.jobs c2 = false)
    (h3 : _job_exists_in_db db.jobs c3 = false)
    (hu12 : c1.url ≠ c2.url) (hu13 : c1.url ≠ c3.url)
    (hu23 : c2.url ≠ c3.url)
    (husers : get_users_for_notification db category_id = [u])
    (hver : u.verified = true) (hrec : u.receive_email = true)
    (hmin : u.min_hiring_rate = none) (htg : u.telegram_chat_id = none)
    (hnotif : ∀ n ∈ db.notifications, n.user_id ≠ u.id) :
    (run_polling_cycle_for_category db category_id (some p)
        (.ok [c1, c2, c3]) now duration max_batch).db.notifications.countP
      (fun n => decide (n.user_id = u.id) &&
        decide (n.status = status_pending)) = 3 ∧
    ((run_polling_cycle_for_category db category_id (some p)
        (.ok [c1, c2, c3]) now duration max_batch).email_tasks.map
      fun t => t.jobs)
      = [[{ title := c1.title, url := c1.url },
          { title := c2.title, url := c2.url },
          { title := c3.title, url := c3.url }]] ∧
    ((run_polling_cycle_for_category db category_id (some p)
        (.ok [c1, c2, c3]) now duration max_batch).email_tasks.map
      fun t => t.recipients) = [[u.email]] ∧
    (run_polling_cycle_for_category db category_id (some p)
        (.ok [c1, c2, c3]) now duration max_batch).telegram_tasks = [] := by
  have hfresh : fresh_candidates db.jobs [c1, c2, c3] = [c1, c2, c3] := by
    simp [fresh_candidates, h1, h2, h3]
  have hnu : ∀ cx : JobData, _job_exists_in_db db.jobs cx = false →
      (db.jobs.any fun e => e.url == cx.url) = false := by
    intro cx hcx
    rw [_job_exists_in_db, List.any_eq_false] at hcx
    rw [List.any_eq_false]
    intro e he
    intro habs
    exact hcx e he (by rw [Bool.or_eq_true]; right; exact habs)
  have hcommit : commit_hits_unique_url db.jobs
      (mk_new_jobs category_id [c1, c2, c3] db.next_job_id now) = false := by
    simp only [mk_new_jobs, commit_hits_unique_url, has_dup, List.map_cons,
      List.map_nil, List.any_cons, List.any_nil]
    simp [hnu c1 h1, hnu c2 h2, hnu c3 h3, hu12, hu13, hu23,
      List.elem_eq_mem]
  have hsave : save_new_jobs db category_id [c1, c2, c3] now
      = ({ db with
            jobs := db.jobs ++
              mk_new_jobs category_id [c1, c2, c3] db.next_job_id now
            next_job_id := db.next_job_id +
              (mk_new_jobs category_id [c1, c2, c3] db.next_job_id
                now).length },
         mk_new_jobs category_id [c1, c2, c3] db.next_job_id now) := by
    unfold save_new_jobs
    rw [hfresh, if_neg (by simp [hcommit])]
  have hrun : run_polling_cycle_for_category db category_id (some p)
      (.ok [c1, c2, c3]) now duration max_batch
      = process_new_jobs
          (update_category_scrape_status
            (log_scrape_result
              { db with
                  jobs := db.jobs ++
                    mk_new_jobs category_id [c1, c2, c3] db.next_job_id now
                  next_job_id := db.next_job_id +
                    (mk_new_jobs category_id [c1, c2, c3] db.next_job_id
                      now).length }
              category_id outcome_success
              (mk_new_jobs category_id [c1, c2, c3] db.next_job_id
                now).length duration none now)
            category_id true now)
          (mk_new_jobs category_id [c1, c2, c3] db.next_job_id now)
          category_id now max_batch := by
    unfold run_polling_cycle_for_category poll_category
      scrape_category_with_logging
    rw [hcat]
    simp only [hp, Bool.false_eq_true, if_false]
    rw [hsave]
    simp [mk_new_jobs]
  have hpassx : ∀ jx : Job, passes_filter u jx = true := by
    intro jx
    unfold passes_filter
    rw [hmin]
  have hee : email_eligible u = true := by
    unfold email_eligible
    rw [hver, hrec]
    rfl
  have hte : telegram_eligible u = false := by
    unfold telegram_eligible
    rw [htg]
    rfl
  have hproc : ∀ dbx : DB, dbx.users = db.users →
      dbx.user_categories = db.user_categories →
      dbx.notifications = db.notifications →
      (process_new_jobs dbx
          (mk_new_jobs category_id [c1, c2, c3] db.next_job_id now)
          category_id now max_batch).db.notifications.countP
        (fun n => decide (n.user_id = u.id) &&
          decide (n.status = status_pending)) = 3 ∧
      ((process_new_jobs dbx
          (mk_new_jobs category_id [c1, c2, c3] db.next_job_id now)
          category_id now max_batch).email_tasks.map fun t => t.jobs)
        = [[{ title := c1.title, url := c1.url },
            { title := c2.title, url := c2.url },
            { title := c3.title, url := c3.url }]] ∧
      ((process_new_jobs dbx
          (mk_new_jobs category_id [c1, c2, c3] db.next_job_id now)
          category_id now max_batch).email_tasks.map fun t => t.recipients)
        = [[u.email]] ∧
      (process_new_jobs dbx
          (mk_new_jobs category_id [c1, c2, c3] db.next_job_id now)
          category_id now max_batch).telegram_tasks = [] := by
    intro dbx hxu hxc hxn
    have husersx : get_users_for_notification dbx category_id = [u] := by
      unfold get_users_for_notification at husers ⊢
      rw [hxu, hxc]
      exact husers
    have hfilter : ∀ l : List Job, filtered_jobs u l = l := by
      intro l
      unfold filtered_jobs
      rw [List.filter_eq_self]
      intro a _
      exact hpassx a
    have hne : (mk_new_jobs category_id [c1, c2, c3] db.next_job_id
        now).isEmpty = false := rfl
    have htags : channel_tags u = [channel_email] := by
      simp [channel_tags, hee, hte]
    have hcount0 : dbx.notifications.countP
        (fun n => decide (n.user_id = u.id) &&
          decide (n.status = status_pending)) = 0 := by
      rw [List.countP_eq_zero]
      intro n hn
      rw [hxn] at hn
      simp [hnotif n hn]
    refine ⟨?_, ?_, ?_, ?_⟩
    · simp only [process_new_jobs, router_records, husersx,
        List.flatMap_cons, List.flatMap_nil, List.append_nil]
      rw [List.countP_append, hcount0]
      rw [countP_assign_ids
        (fun n => decide (n.user_id = u.id) &&
          decide (n.status = status_pending)) (fun n i => rfl)]
      simp only [user_block, hfilter, htags, hne]
      simp [mk_new_jobs, mk_pending]
    · simp only [process_new_jobs, husersx, List.map_cons, List.map_nil,
        hfilter, hne]
      simp only [Bool.not_false, List.filter_cons, List.filter_nil, hee,
        if_pos, group_by_itemset, List.foldl_cons, List.foldl_nil,
        insert_grouped]
      simp [chunk_list_singleton, EmailTask.recipients, hee, mk_new_jobs,
        insert_grouped]
    · simp only [process_new_jobs, husersx, List.map_cons, List.map_nil,
        hfilter, hne]
      simp only [Bool.not_false, List.filter_cons, List.filter_nil, hee,
        if_pos, group_by_itemset, List.foldl_cons, List.foldl_nil,
        insert_grouped]
      simp [chunk_list_singleton, EmailTask.recipients, hee, mk_new_jobs,
        insert_grouped]
    · simp only [process_new_jobs, husersx, List.map_cons, List.map_nil,
        hfilter, hne]
      simp [hte]
  rw [hrun]
  exact hproc _ rfl rfl rfl

/-- Witness for C1 at a concrete store: three unknown candidates and the
fixture recipient produce exactly three pending delivery records. -/
theorem polling_cycle_end_to_end_witness :
    get_users_for_notification db_router 1 = [user_fix] ∧
    (run_polling_cycle_for_category db_router 1 (some cand_a)
        (.ok [cand_dup_title_1, cand_dup_title_2, cand_known]) 0 0
        2).db.notifications.countP
      (fun n => decide (n.user_id = user_fix.id) &&
        decide (n.status = status_pending)) = 3 :=
  ⟨by decide,
    (polling_cycle_end_to_end db_router 1 cat_dev cand_a cand_dup_title_1
      cand_dup_title_2 cand_known user_fix 0 0 2 (by decide) (by decide)
      (by decide) (by decide) (by decide) (by decide) (by decide) (by decide)
      (by decide) (by decide) (by decide) (by decide) (by decide)
      (by decide)).1⟩

end MostaQL
